import Mathlib

/-!
Verification of the `os_volume_backup` Ansible module
(`lib/ansible/modules/cloud/openstack/os_volume_backup.py`).

The module is a thin controller over an external OpenStack SDK facade.  We
embed the controller logic faithfully: the facade is modelled as a pure
lookup environment (lists of volumes and backups) with injectable HTTP
errors for the three mutating operations, and every facade call made by the
controller is recorded in a trace so that claims of the form "exactly one
create is invoked" or "no mutating call is made" are statable.
-/

namespace VolumeBackup

/-- A cloud volume as consulted by the module: only `id` is dereferenced,
`name` participates in name-or-id lookup. -/
structure Volume where
  id : String
  name : String
deriving Repr, DecidableEq

/-- A volume backup with the attributes the module consults or returns. -/
structure Backup where
  id : String
  name : String
  volume_id : String
  size : Nat
  status : String
  has_dependent_backups : Bool
  is_incremental : Bool
deriving Repr, DecidableEq

/-- The record returned by the facade for a restore operation. -/
structure RestoreRecord where
  backup_id : String
  volume_id : Option String
  volume_name : Option String
deriving Repr, DecidableEq

/-- An `openstack.exceptions.HttpException` as the module observes it: the
source reads both the `details` attribute (in `_present_volume_backup`) and
the `message` attribute (in the module-level handler of `main`), so the
model keeps the two texts separate. -/
structure HttpException where
  message : String
  details : String
deriving Repr, DecidableEq

/-- The facade environment: the cloud state visible through lookups, a
fresh id handed out by `create_volume_backup`, and optional injected HTTP
errors for each mutating operation (modelling transport faults raised by
the SDK). -/
structure Cloud where
  volumes : List Volume
  backups : List Backup
  freshBackupId : String
  createError : Option HttpException
  deleteError : Option HttpException
  restoreError : Option HttpException
deriving Repr, DecidableEq

/-- One facade call, as recorded in the execution trace. -/
inductive FacadeCall where
  | getVolume (name_or_id : Option String)
  | volumeExists (name_or_id : Option String)
  | getVolumeBackup (name_or_id : String) (volume_id_filter : Option String)
  | create (volume_id : String) (force : Bool) (wait : Bool) (timeout : Nat)
      (name : String) (description : Option String)
  | delete (name_or_id : String) (wait : Bool) (timeout : Nat)
  | restore (backup_id : String) (volume_name : Option String)
      (volume_id : Option String) (wait : Bool) (timeout : Nat)
deriving Repr, DecidableEq

/-- Whether a facade call mutates cloud state (create, delete, restore). -/
def FacadeCall.mutating : FacadeCall → Bool
  | .create _ _ _ _ _ _ => true
  | .delete _ _ _ => true
  | .restore _ _ _ _ _ => true
  | _ => false

/-- `mode` parameter: `choices=[backup, restore]`. -/
inductive Mode where
  | backup
  | restore
deriving Repr, DecidableEq

/-- `state` parameter: `choices=[absent, present]`. -/
inductive State where
  | present
  | absent
deriving Repr, DecidableEq

/-- The module parameters after argument-spec validation, plus the host
framework's check-mode flag.  Optional string parameters default to
`none` (Python `None`). -/
structure Params where
  backup : String
  display_description : Option String
  source_volume : Option String
  target_volume : Option String
  mode : Mode
  force : Bool
  state : State
  wait : Bool
  timeout : Nat
  check_mode : Bool
deriving Repr, DecidableEq

/-- Python truthiness of an optional string parameter, as tested by
`module.params.get(key, False)`: `None` and the empty string are falsy. -/
def truthy : Option String → Option String
  | none => none
  | some s => if s = "" then none else some s

/-- Python string interpolation of an optional parameter:
`"{0}".format(None)` renders as `"None"`. -/
def optStr : Option String → String
  | none => "None"
  | some s => s

/-- Facade model: `cloud.get_volume(name_or_id)` finds the first volume
whose id or name equals the argument; a `None` argument matches nothing. -/
def get_volume (c : Cloud) (name_or_id : Option String) : Option Volume :=
  match name_or_id with
  | none => none
  | some s => c.volumes.find? (fun v => v.id == s || v.name == s)

/-- Facade model: `cloud.volume_exists(name_or_id)`. -/
def volume_exists (c : Cloud) (name_or_id : Option String) : Bool :=
  (get_volume c name_or_id).isSome

/-- Whether a backup matches a name-or-id lookup with an optional
`volume_id` filter. -/
def matchesBackup (name_or_id : String) (filt : Option String) (b : Backup) : Bool :=
  (b.id == name_or_id || b.name == name_or_id) &&
    (match filt with
     | none => true
     | some vid => b.volume_id == vid)

/-- Facade model: `cloud.get_volume_backup(name_or_id, filters)` with an
optional `volume_id` filter. -/
def get_volume_backup (c : Cloud) (name_or_id : String) (filt : Option String) :
    Option Backup :=
  c.backups.find? (matchesBackup name_or_id filt)

/-- The backup record the facade model returns from a successful create:
a fresh id, the requested name, the requested source volume id. -/
def createdBackup (c : Cloud) (volume_id : String) (name : String) : Backup :=
  { id := c.freshBackupId, name := name, volume_id := volume_id, size := 0,
    status := "available", has_dependent_backups := false,
    is_incremental := false }

/-- Facade model: `cloud.create_volume_backup(...)`.  Raises the injected
HTTP error if present, otherwise appends the created backup to the cloud
state and returns it. -/
def create_volume_backup (c : Cloud) (volume_id : String) (name : String) :
    Except HttpException (Backup × Cloud) :=
  match c.createError with
  | some e => .error e
  | none =>
    let b := createdBackup c volume_id name
    .ok (b, { c with backups := c.backups ++ [b] })

/-- Facade model: `cloud.delete_volume_backup(name_or_id, ...)`. -/
def delete_volume_backup (c : Cloud) (name_or_id : String) :
    Except HttpException Cloud :=
  match c.deleteError with
  | some e => .error e
  | none => .ok { c with backups := c.backups.filter (fun b => !(b.id == name_or_id)) }

/-- Facade model: `cloud.restore_volume_backup(backup_id, volume_name,
volume_id, ...)`. -/
def restore_volume_backup (c : Cloud) (backup_id : String)
    (volume_name : Option String) (volume_id : Option String) :
    Except HttpException (RestoreRecord × Cloud) :=
  match c.restoreError with
  | some e => .error e
  | none =>
    .ok ({ backup_id := backup_id, volume_id := volume_id,
           volume_name := volume_name }, c)

/-- The observable outcome of one module invocation: a normal
`exit_json` (with whichever of `backup`, `backup_id`, `restore` the exit
carries), a skipped result, a `fail_json` failure, or an unhandled Python
`AttributeError` escaping the module. -/
inductive Outcome where
  | exited (changed : Bool) (backup : Option Backup) (backup_id : Option String)
      (restore : Option RestoreRecord)
  | skipped (msg : String)
  | failed (msg : String)
  | attributeError
deriving Repr, DecidableEq

/-- Result of one invocation: the outcome, the trace of facade calls in
order, and the final cloud state. -/
structure RunResult where
  outcome : Outcome
  calls : List FacadeCall
  cloud : Cloud
deriving Repr, DecidableEq

/-- `_present_volume_backup(module, cloud, sdk)`: resolve the source
volume, look up an existing backup filtered by that volume id, create one
if absent (catching `HttpException` and failing with its `details`),
otherwise exit unchanged with the existing backup.  Dereferencing
`volume.id` when `get_volume` returned `None` raises `AttributeError`. -/
def _present_volume_backup (p : Params) (c : Cloud) : RunResult :=
  match get_volume c p.source_volume with
  | none =>
    { outcome := .attributeError, calls := [.getVolume p.source_volume], cloud := c }
  | some volume =>
    let lookupCalls : List FacadeCall :=
      [.getVolume p.source_volume, .getVolumeBackup p.backup (some volume.id)]
    match get_volume_backup c p.backup (some volume.id) with
    | some backup =>
      { outcome := .exited false (some backup) none none,
        calls := lookupCalls, cloud := c }
    | none =>
      let call := FacadeCall.create volume.id p.force p.wait p.timeout
        p.backup p.display_description
      match create_volume_backup c volume.id p.backup with
      | .error e =>
        { outcome := .failed e.details, calls := lookupCalls ++ [call], cloud := c }
      | .ok (backup, c2) =>
        { outcome := .exited true (some backup) none none,
          calls := lookupCalls ++ [call], cloud := c2 }

/-- `_absent_volume_backup(module, cloud, sdk)`: look up the backup,
filtering by `source_volume` passed verbatim as `volume_id` when that
parameter is truthy; exit unchanged if absent, otherwise delete by the
found backup id and exit changed with that id. -/
def _absent_volume_backup (p : Params) (c : Cloud) : RunResult :=
  let filt := truthy p.source_volume
  match get_volume_backup c p.backup filt with
  | none =>
    { outcome := .exited false none none none,
      calls := [.getVolumeBackup p.backup filt], cloud := c }
  | some backup =>
    let calls : List FacadeCall :=
      [.getVolumeBackup p.backup filt, .delete backup.id p.wait p.timeout]
    match delete_volume_backup c backup.id with
    | .error e => { outcome := .failed e.message, calls := calls, cloud := c }
    | .ok c2 =>
      { outcome := .exited true none (some backup.id) none,
        calls := calls, cloud := c2 }

/-- The target-volume resolution block of `_restore_volume_backup`: when
`target_volume` is truthy and `volume_exists`, the existing volume's id is
used as `volume_id`; when it is truthy but no volume exists, the literal
string is used as `volume_name`; otherwise both stay `None`.  Returns
`(volume_id, volume_name, facade calls made)`. -/
def resolveTarget (p : Params) (c : Cloud) :
    Option String × Option String × List FacadeCall :=
  match truthy p.target_volume with
  | none => (none, none, [])
  | some t =>
    match get_volume c (some t) with
    | some volume =>
      (some volume.id, none, [.volumeExists (some t), .getVolume (some t)])
    | none => (none, some t, [.volumeExists (some t)])

/-- `_restore_volume_backup(module, cloud, sdk)`: resolve the optional
target volume (existing volume gives `volume_id`, otherwise the literal
name is passed as `volume_name`), look up the backup with the verbatim
`source_volume` filter, then restore, or fail when no backup was found.
An HTTP error raised by the restore call reaches the module-level handler,
which fails with the exception message. -/
def _restore_volume_backup (p : Params) (c : Cloud) : RunResult :=
  let filt := truthy p.source_volume
  let volume_id := (resolveTarget p c).1
  let volume_name := (resolveTarget p c).2.1
  let tvCalls := (resolveTarget p c).2.2
  match get_volume_backup c p.backup filt with
  | none =>
    { outcome := .failed ("No backup name or id \x27" ++ p.backup ++ "\x27 was found."),
      calls := tvCalls ++ [.getVolumeBackup p.backup filt], cloud := c }
  | some backup =>
    let calls := tvCalls ++
      [.getVolumeBackup p.backup filt,
       .restore backup.id volume_name volume_id p.wait p.timeout]
    match restore_volume_backup c backup.id volume_name volume_id with
    | .error e => { outcome := .failed e.message, calls := calls, cloud := c }
    | .ok (r, c2) =>
      { outcome := .exited true none none (some r), calls := calls, cloud := c2 }

/-- `_system_state_change(module, cloud)`: the check-mode predicate.  It
unconditionally dereferences `volume.id` on the result of
`get_volume(source_volume)`; when that is `None` the dereference raises
`AttributeError`, modelled as `none`.  Otherwise it compares `state`
against current backup existence. -/
def _system_state_change (p : Params) (c : Cloud) : Option Bool × List FacadeCall :=
  match get_volume c p.source_volume with
  | none => (none, [.getVolume p.source_volume])
  | some volume =>
    let backup := get_volume_backup c p.backup (some volume.id)
    let calls : List FacadeCall :=
      [.getVolume p.source_volume, .getVolumeBackup p.backup (some volume.id)]
    match p.state with
    | .present => (some backup.isNone, calls)
    | .absent => (some backup.isSome, calls)

/-- The dispatch of `main()` after parameter parsing: check mode is handled
first in each mode; `mode=backup, state=present` checks `volume_exists`
before delegating and otherwise fails with the no-volume message;
`mode=restore` in check mode exits skipped. -/
def main_run (p : Params) (c : Cloud) : RunResult :=
  match p.mode with
  | Mode.backup =>
    if p.check_mode then
      match _system_state_change p c with
      | (none, calls) => { outcome := .attributeError, calls := calls, cloud := c }
      | (some chg, calls) =>
        { outcome := .exited chg none none none, calls := calls, cloud := c }
    else
      match p.state with
      | State.present =>
        if volume_exists c p.source_volume then
          let r := _present_volume_backup p c
          { r with calls := FacadeCall.volumeExists p.source_volume :: r.calls }
        else
          { outcome := .failed ("No volume with name or id \x27" ++
              optStr p.source_volume ++ "\x27 was found."),
            calls := [.volumeExists p.source_volume], cloud := c }
      | State.absent => _absent_volume_backup p c
  | Mode.restore =>
    if p.check_mode then
      { outcome := .skipped "mode \x27restore\x27 does not support check mode, skipping",
        calls := [], cloud := c }
    else
      _restore_volume_backup p c

/-! ## Sample inputs used by the witnesses -/

/-- A sample volume. -/
def vol1 : Volume := { id := "vid-1", name := "vol-1" }

/-- A sample backup of `vol1` named `b1`. -/
def bak1 : Backup :=
  { id := "bk-1", name := "b1", volume_id := "vid-1", size := 1,
    status := "available", has_dependent_backups := false,
    is_incremental := false }

/-- A cloud holding `vol1` and no backups, no injected errors. -/
def cloudEmpty : Cloud :=
  { volumes := [vol1], backups := [], freshBackupId := "bk-new",
    createError := none, deleteError := none, restoreError := none }

/-- A cloud holding `vol1` and the backup `bak1`. -/
def cloudWithBackup : Cloud := { cloudEmpty with backups := [bak1] }

/-- Baseline parameters: create backup `b1` from `vol-1`. -/
def basePar : Params :=
  { backup := "b1", display_description := some "descr",
    source_volume := some "vol-1", target_volume := none,
    mode := Mode.backup, force := true, state := State.present,
    wait := true, timeout := 600, check_mode := false }

/-! ## Helper lemmas -/

/-- `find?` over an append skips a prefix in which nothing matches. -/
theorem find?_append_of_none {α : Type} {f : α → Bool} {l1 l2 : List α}
    (h : l1.find? f = none) : (l1 ++ l2).find? f = l2.find? f := by
  induction l1 with
  | nil => rfl
  | cons a t ih =>
    cases hfa : f a with
    | true => simp [List.find?_cons, hfa] at h
    | false =>
      simp only [List.find?_cons, hfa, List.cons_append] at h ⊢
      exact ih h

/-! ## Claims -/

/-- C5: every check-mode invocation with `mode=restore` exits skipped with
the explanatory message, makes no facade call at all (in particular never
invokes `restore_volume_backup`), and is neither a failure nor a change
report. -/
theorem c5_restore_check_mode_skipped (p : Params) (c : Cloud)
    (hm : p.mode = Mode.restore) (hc : p.check_mode = true) :
    (main_run p c).outcome =
      Outcome.skipped "mode \x27restore\x27 does not support check mode, skipping" ∧
    (main_run p c).calls = [] := by
  simp [main_run, hm, hc]

/-- Witness for C5 at concrete input. -/
theorem c5_restore_check_mode_skipped_w :
    (main_run { basePar with mode := Mode.restore, check_mode := true } cloudEmpty).outcome =
      Outcome.skipped "mode \x27restore\x27 does not support check mode, skipping" ∧
    (main_run { basePar with mode := Mode.restore, check_mode := true } cloudEmpty).calls = [] :=
  c5_restore_check_mode_skipped _ cloudEmpty rfl rfl

/-- C6: a non-check-mode `mode=backup, state=present` invocation whose
`source_volume` does not resolve fails with the no-volume message after a
single `volume_exists` probe: no backup lookup and no mutating call. -/
theorem c6_present_no_volume_fails (p : Params) (c : Cloud)
    (hm : p.mode = Mode.backup) (hs : p.state = State.present)
    (hc : p.check_mode = false)
    (hv : get_volume c p.source_volume = none) :
    (main_run p c).outcome =
      Outcome.failed ("No volume with name or id \x27" ++ optStr p.source_volume ++
        "\x27 was found.") ∧
    (main_run p c).calls = [FacadeCall.volumeExists p.source_volume] ∧
    (main_run p c).calls.filter FacadeCall.mutating = [] := by
  simp [main_run, hm, hs, hc, volume_exists, hv, FacadeCall.mutating]

/-- Witness for C6 at concrete input. -/
theorem c6_present_no_volume_fails_w :
    (main_run { basePar with source_volume := some "nope" } cloudEmpty).outcome =
      Outcome.failed ("No volume with name or id \x27" ++
        optStr ({ basePar with source_volume := some "nope" } : Params).source_volume ++
        "\x27 was found.") ∧
    (main_run { basePar with source_volume := some "nope" } cloudEmpty).calls =
      [FacadeCall.volumeExists ({ basePar with source_volume := some "nope" } : Params).source_volume] ∧
    (main_run { basePar with source_volume := some "nope" } cloudEmpty).calls.filter
      FacadeCall.mutating = [] :=
  c6_present_no_volume_fails { basePar with source_volume := some "nope" }
    cloudEmpty rfl rfl rfl rfl

/-- C10: a check-mode `mode=backup` invocation whose `source_volume` does
not resolve (including when it is omitted, and regardless of `state`)
raises an unhandled attribute error: the dry-run calls `get_volume` first,
before any `volume_exists` check, and dereferences the missing volume, so
no changed result and no no-volume failure is produced. -/
theorem c10_check_mode_attribute_error (p : Params) (c : Cloud)
    (hm : p.mode = Mode.backup) (hc : p.check_mode = true)
    (hv : get_volume c p.source_volume = none) :
    (main_run p c).outcome = Outcome.attributeError ∧
    (main_run p c).calls = [FacadeCall.getVolume p.source_volume] := by
  simp [main_run, hm, hc, _system_state_change, hv]

/-- Concrete input for the C10 witness: check mode, `state=absent`,
`source_volume` omitted. -/
def parC10 : Params :=
  { basePar with check_mode := true, state := State.absent, source_volume := none }

/-- Witness for C10 at concrete input with `state=absent` and omitted
`source_volume`. -/
theorem c10_check_mode_attribute_error_w :
    (main_run parC10 cloudEmpty).outcome = Outcome.attributeError ∧
    (main_run parC10 cloudEmpty).calls = [FacadeCall.getVolume parC10.source_volume] :=
  c10_check_mode_attribute_error parC10 cloudEmpty rfl rfl rfl

/-- C4: a check-mode `mode=backup` invocation whose `source_volume`
resolves to a volume returns a changed flag equal to
`(state = present) ↔ (no backup exists for that volume)` and makes no
mutating facade call. -/
theorem c4_check_mode_backup_changed (p : Params) (c : Cloud) (v : Volume)
    (hm : p.mode = Mode.backup) (hc : p.check_mode = true)
    (hv : get_volume c p.source_volume = some v) :
    (∃ chg, (main_run p c).outcome = Outcome.exited chg none none none ∧
      (chg = true ↔ ((p.state = State.present) ↔
        get_volume_backup c p.backup (some v.id) = none))) ∧
    (main_run p c).calls.filter FacadeCall.mutating = [] := by
  cases hs : p.state <;>
    cases hb : get_volume_backup c p.backup (some v.id) <;>
      simp [main_run, hm, hc, _system_state_change, hv, hs, hb, FacadeCall.mutating]

/-- Witness for C4 at concrete input: state `present`, no backup yet. -/
theorem c4_check_mode_backup_changed_w :
    (∃ chg, (main_run { basePar with check_mode := true } cloudEmpty).outcome =
        Outcome.exited chg none none none ∧
      (chg = true ↔ ((({ basePar with check_mode := true } : Params).state = State.present) ↔
        get_volume_backup cloudEmpty ({ basePar with check_mode := true } : Params).backup
          (some vol1.id) = none))) ∧
    (main_run { basePar with check_mode := true } cloudEmpty).calls.filter
      FacadeCall.mutating = [] :=
  c4_check_mode_backup_changed { basePar with check_mode := true } cloudEmpty vol1
    rfl rfl rfl

/-- The target-resolution block performs only lookups: its trace contains
no mutating call. -/
theorem resolveTarget_mut (p : Params) (c : Cloud) :
    (resolveTarget p c).2.2.filter FacadeCall.mutating = [] := by
  cases ht : truthy p.target_volume with
  | none => simp [resolveTarget, ht]
  | some t =>
    cases hg : get_volume c (some t) <;>
      simp [resolveTarget, ht, hg, FacadeCall.mutating]

/-- C2: a non-check-mode `mode=backup, state=absent` invocation with a
succeeding facade: when no backup matches the name under the (truthy)
`source_volume` filter, the result is unchanged and no mutating call is
made; when one matches, exactly one delete on its id is invoked and the
result is changed with that id as `backup_id`. -/
theorem c2_absent_delete (p : Params) (c : Cloud)
    (hm : p.mode = Mode.backup) (hs : p.state = State.absent)
    (hc : p.check_mode = false) (he : c.deleteError = none) :
    (get_volume_backup c p.backup (truthy p.source_volume) = none →
      (main_run p c).outcome = Outcome.exited false none none none ∧
      (main_run p c).calls.filter FacadeCall.mutating = []) ∧
    (∀ b, get_volume_backup c p.backup (truthy p.source_volume) = some b →
      (main_run p c).outcome = Outcome.exited true none (some b.id) none ∧
      (main_run p c).calls.filter FacadeCall.mutating =
        [FacadeCall.delete b.id p.wait p.timeout]) := by
  constructor
  · intro hb
    simp [main_run, hm, hs, hc, _absent_volume_backup, hb, FacadeCall.mutating]
  · intro b hb
    simp [main_run, hm, hs, hc, _absent_volume_backup, hb, delete_volume_backup,
      he, FacadeCall.mutating]

/-- Concrete input for the C2 witness: delete `b1` with no
`source_volume` filter. -/
def parC2 : Params :=
  { basePar with state := State.absent, source_volume := none }

/-- Witness for C2 at concrete input: the backup exists and is deleted. -/
theorem c2_absent_delete_w :
    (main_run parC2 cloudWithBackup).outcome =
      Outcome.exited true none (some bak1.id) none ∧
    (main_run parC2 cloudWithBackup).calls.filter FacadeCall.mutating =
      [FacadeCall.delete bak1.id parC2.wait parC2.timeout] :=
  (c2_absent_delete parC2 cloudWithBackup rfl rfl rfl rfl).2 bak1 rfl

/-- C3: a non-check-mode `mode=restore` invocation: when the backup lookup
(with the truthy `source_volume` filter) finds nothing, the run fails with
the no-backup message and makes no mutating call; when it finds a backup
and the facade restore succeeds, exactly one restore is invoked and the
result is changed with the restore record. -/
theorem c3_restore_dispatch (p : Params) (c : Cloud)
    (hm : p.mode = Mode.restore) (hc : p.check_mode = false) :
    (get_volume_backup c p.backup (truthy p.source_volume) = none →
      (main_run p c).outcome =
        Outcome.failed ("No backup name or id \x27" ++ p.backup ++ "\x27 was found.") ∧
      (main_run p c).calls.filter FacadeCall.mutating = []) ∧
    (∀ b, get_volume_backup c p.backup (truthy p.source_volume) = some b →
      c.restoreError = none →
      (main_run p c).outcome = Outcome.exited true none none
        (some { backup_id := b.id, volume_id := (resolveTarget p c).1,
                volume_name := (resolveTarget p c).2.1 }) ∧
      (main_run p c).calls.filter FacadeCall.mutating =
        [FacadeCall.restore b.id (resolveTarget p c).2.1 (resolveTarget p c).1
          p.wait p.timeout]) := by
  constructor
  · intro hb
    simp [main_run, hm, hc, _restore_volume_backup, hb, FacadeCall.mutating,
      List.filter_append, resolveTarget_mut]
  · intro b hb he
    simp [main_run, hm, hc, _restore_volume_backup, hb, restore_volume_backup,
      he, FacadeCall.mutating, List.filter_append, resolveTarget_mut]

/-- Concrete input for the C3 witness: restore `b1`, no filters. -/
def parC3 : Params :=
  { basePar with mode := Mode.restore, source_volume := none }

/-- Witness for C3 at concrete input: the backup exists and is restored. -/
theorem c3_restore_dispatch_w :
    (main_run parC3 cloudWithBackup).outcome = Outcome.exited true none none
      (some { backup_id := bak1.id,
              volume_id := (resolveTarget parC3 cloudWithBackup).1,
              volume_name := (resolveTarget parC3 cloudWithBackup).2.1 }) ∧
    (main_run parC3 cloudWithBackup).calls.filter FacadeCall.mutating =
      [FacadeCall.restore bak1.id (resolveTarget parC3 cloudWithBackup).2.1
        (resolveTarget parC3 cloudWithBackup).1 parC3.wait parC3.timeout] :=
  (c3_restore_dispatch parC3 cloudWithBackup rfl rfl).2 bak1 rfl rfl

/-- C7: in a non-check-mode `mode=restore` invocation that finds a backup,
the restore call's target arguments follow target-volume resolution: an
existing volume contributes its id (and no name), a non-existing truthy
name is passed literally as the volume name (and no id), and an omitted
`target_volume` leaves both empty. -/
theorem c7_target_resolution (p : Params) (c : Cloud) (b : Backup)
    (hm : p.mode = Mode.restore) (hc : p.check_mode = false)
    (hb : get_volume_backup c p.backup (truthy p.source_volume) = some b) :
    (∀ t v, p.target_volume = some t → t ≠ "" → get_volume c (some t) = some v →
      FacadeCall.restore b.id none (some v.id) p.wait p.timeout ∈ (main_run p c).calls) ∧
    (∀ t, p.target_volume = some t → t ≠ "" → get_volume c (some t) = none →
      FacadeCall.restore b.id (some t) none p.wait p.timeout ∈ (main_run p c).calls) ∧
    (p.target_volume = none →
      FacadeCall.restore b.id none none p.wait p.timeout ∈ (main_run p c).calls) := by
  refine ⟨?_, ?_, ?_⟩
  · intro t v ht hne hv
    have htr : truthy p.target_volume = some t := by simp [truthy, ht, hne]
    have hres : resolveTarget p c =
        (some v.id, none, [.volumeExists (some t), .getVolume (some t)]) := by
      simp [resolveTarget, htr, hv]
    cases hre : c.restoreError <;>
      simp [main_run, hm, hc, _restore_volume_backup, hb, hres,
        restore_volume_backup, hre]
  · intro t ht hne hv
    have htr : truthy p.target_volume = some t := by simp [truthy, ht, hne]
    have hres : resolveTarget p c = (none, some t, [.volumeExists (some t)]) := by
      simp [resolveTarget, htr, hv]
    cases hre : c.restoreError <;>
      simp [main_run, hm, hc, _restore_volume_backup, hb, hres,
        restore_volume_backup, hre]
  · intro ht
    have hres : resolveTarget p c = (none, none, []) := by
      simp [resolveTarget, truthy, ht]
    cases hre : c.restoreError <;>
      simp [main_run, hm, hc, _restore_volume_backup, hb, hres,
        restore_volume_backup, hre]

/-- Concrete input for the C7 witness: restore `b1` to existing volume
`vol-1`. -/
def parC7 : Params :=
  { basePar with mode := Mode.restore, source_volume := none, target_volume := some "vol-1" }

/-- Witness for C7 at concrete input: target resolves to `vol1`, so the
restore call carries its id and no name. -/
theorem c7_target_resolution_w :
    FacadeCall.restore bak1.id none (some vol1.id) parC7.wait parC7.timeout ∈
      (main_run parC7 cloudWithBackup).calls :=
  (c7_target_resolution parC7 cloudWithBackup bak1 rfl rfl rfl).1
    "vol-1" vol1 rfl (by decide) rfl

/-- C9: a supplied (truthy) `source_volume` is passed verbatim as the
backup-lookup `volume_id` filter on the `state=absent` and `mode=restore`
paths, while the `mode=backup, state=present` path filters by the resolved
volume's id instead. -/
theorem c9_verbatim_source_filter (p : Params) (c : Cloud) (s : String)
    (hsv : p.source_volume = some s) (hne : s ≠ "") (hc : p.check_mode = false) :
    (p.mode = Mode.backup → p.state = State.absent →
      FacadeCall.getVolumeBackup p.backup (some s) ∈ (main_run p c).calls) ∧
    (p.mode = Mode.restore →
      FacadeCall.getVolumeBackup p.backup (some s) ∈ (main_run p c).calls) ∧
    (∀ v, p.mode = Mode.backup → p.state = State.present →
      get_volume c p.source_volume = some v →
      FacadeCall.getVolumeBackup p.backup (some v.id) ∈ (main_run p c).calls) := by
  have htr : truthy p.source_volume = some s := by simp [truthy, hsv, hne]
  refine ⟨?_, ?_, ?_⟩
  · intro hm hs
    cases hb : get_volume_backup c p.backup (some s) with
    | none => simp [main_run, hm, hs, hc, _absent_volume_backup, htr, hb]
    | some b =>
      cases hd : c.deleteError <;>
        simp [main_run, hm, hs, hc, _absent_volume_backup, htr, hb,
          delete_volume_backup, hd]
  · intro hm
    cases hb : get_volume_backup c p.backup (some s) with
    | none => simp [main_run, hm, hc, _restore_volume_backup, htr, hb]
    | some b =>
      cases hre : c.restoreError <;>
        simp [main_run, hm, hc, _restore_volume_backup, htr, hb,
          restore_volume_backup, hre]
  · intro v hm hs hv
    cases hb : get_volume_backup c p.backup (some v.id) with
    | none =>
      cases hce : c.createError <;>
        simp [main_run, hm, hs, hc, volume_exists, hv, _present_volume_backup,
          hb, create_volume_backup, hce]
    | some b =>
      simp [main_run, hm, hs, hc, volume_exists, hv, _present_volume_backup, hb]

/-- Concrete input for the C9 witness: delete with a name (not id) given
as `source_volume`. -/
def parC9 : Params := { basePar with state := State.absent }

/-- Witness for C9 at concrete input: the literal string `vol-1` (a volume
name, not an id) is used as the `volume_id` filter of the lookup. -/
theorem c9_verbatim_source_filter_w :
    FacadeCall.getVolumeBackup parC9.backup (some "vol-1") ∈
      (main_run parC9 cloudWithBackup).calls :=
  (c9_verbatim_source_filter parC9 cloudWithBackup "vol-1" rfl (by decide) rfl).1
    rfl rfl

/-- C1: a non-check-mode `mode=backup, state=present` invocation whose
source volume resolves and whose facade create succeeds: when no backup
matches the name under the resolved volume-id filter, exactly one create is
invoked (propagating force, wait, timeout, the backup name and the
description) and the result is changed with the created backup; rerunning
the identical invocation on the resulting cloud is unchanged with that
backup and makes no mutating call.  When a backup already matches, no
mutating call is made and the result is unchanged with the existing
backup. -/
theorem c1_present_create_idempotent (p : Params) (c : Cloud) (v : Volume)
    (hm : p.mode = Mode.backup) (hs : p.state = State.present)
    (hc : p.check_mode = false) (hv : get_volume c p.source_volume = some v)
    (he : c.createError = none) :
    (get_volume_backup c p.backup (some v.id) = none →
      (main_run p c).outcome =
        Outcome.exited true (some (createdBackup c v.id p.backup)) none none ∧
      (main_run p c).calls.filter FacadeCall.mutating =
        [FacadeCall.create v.id p.force p.wait p.timeout p.backup p.display_description] ∧
      (main_run p (main_run p c).cloud).outcome =
        Outcome.exited false (some (createdBackup c v.id p.backup)) none none ∧
      (main_run p (main_run p c).cloud).calls.filter FacadeCall.mutating = []) ∧
    (∀ b, get_volume_backup c p.backup (some v.id) = some b →
      (main_run p c).outcome = Outcome.exited false (some b) none none ∧
      (main_run p c).calls.filter FacadeCall.mutating = []) := by
  obtain ⟨s, hsv⟩ : ∃ s, p.source_volume = some s := by
    cases hsv : p.source_volume with
    | none => rw [hsv] at hv; simp [get_volume] at hv
    | some s => exact ⟨s, rfl⟩
  constructor
  · intro hb
    have hmain : main_run p c =
        { outcome := Outcome.exited true (some (createdBackup c v.id p.backup)) none none,
          calls := [FacadeCall.volumeExists p.source_volume,
            FacadeCall.getVolume p.source_volume,
            FacadeCall.getVolumeBackup p.backup (some v.id),
            FacadeCall.create v.id p.force p.wait p.timeout p.backup p.display_description],
          cloud := { c with backups := c.backups ++ [createdBackup c v.id p.backup] } } := by
      simp [main_run, hm, hs, hc, volume_exists, hv, _present_volume_backup, hb,
        create_volume_backup, he]
    have hfind : c.backups.find? (matchesBackup p.backup (some v.id)) = none := hb
    have hv2 : get_volume { c with backups := c.backups ++ [createdBackup c v.id p.backup] }
        p.source_volume = some v := by
      simp only [get_volume, hsv] at hv ⊢
      exact hv
    have hb2 : get_volume_backup
        { c with backups := c.backups ++ [createdBackup c v.id p.backup] }
        p.backup (some v.id) = some (createdBackup c v.id p.backup) := by
      show (c.backups ++ [createdBackup c v.id p.backup]).find?
        (matchesBackup p.backup (some v.id)) = _
      rw [find?_append_of_none hfind]
      simp [List.find?_cons, matchesBackup, createdBackup]
    rw [hmain]
    refine ⟨rfl, by simp [FacadeCall.mutating], ?_, ?_⟩
    · simp [main_run, hm, hs, hc, volume_exists, hv2, _present_volume_backup, hb2]
    · simp [main_run, hm, hs, hc, volume_exists, hv2, _present_volume_backup, hb2,
        FacadeCall.mutating]
  · intro b hb
    constructor
    · simp [main_run, hm, hs, hc, volume_exists, hv, _present_volume_backup, hb]
    · simp [main_run, hm, hs, hc, volume_exists, hv, _present_volume_backup, hb,
        FacadeCall.mutating]

/-- Witness for C1 at concrete input: creating `b1` from `vol-1` on an
empty cloud, then rerunning on the produced cloud. -/
theorem c1_present_create_idempotent_w :
    (main_run basePar cloudEmpty).outcome =
      Outcome.exited true (some (createdBackup cloudEmpty vol1.id basePar.backup)) none none ∧
    (main_run basePar cloudEmpty).calls.filter FacadeCall.mutating =
      [FacadeCall.create vol1.id basePar.force basePar.wait basePar.timeout
        basePar.backup basePar.display_description] ∧
    (main_run basePar (main_run basePar cloudEmpty).cloud).outcome =
      Outcome.exited false (some (createdBackup cloudEmpty vol1.id basePar.backup)) none none ∧
    (main_run basePar (main_run basePar cloudEmpty).cloud).calls.filter
      FacadeCall.mutating = [] :=
  (c1_present_create_idempotent basePar cloudEmpty vol1 rfl rfl rfl rfl rfl).1 rfl

/-- The HTTP exception used by the C8 counterexample, with distinct
message and details texts as the SDK produces in general. -/
def httpErrDel : HttpException :=
  { message := "Error deleting backup", details := "Conflict detail text" }

/-- A cloud whose delete operation raises `httpErrDel`. -/
def cloudDelErr : Cloud := { cloudWithBackup with deleteError := some httpErrDel }

/-- C8 counterexample: when the facade delete raises an HTTP error, the
module-level handler surfaces the exception message, not its details text,
so a mutating-call failure does not in general carry the detail text. -/
theorem c8_delete_message_not_details :
    (main_run parC2 cloudDelErr).outcome = Outcome.failed httpErrDel.message ∧
    httpErrDel.message ≠ httpErrDel.details := by
  constructor
  · decide
  · decide

/-- C8 amended: a facade HTTP error during the create call surfaces as a
failure carrying the exception details text (the in-function handler);
during delete or restore it surfaces as a failure carrying the exception
message text (the module-level handler); in every case the failed mutating
call was attempted exactly once, with no local retry. -/
theorem c8_http_error_surfaced (p : Params) (c : Cloud) (e : HttpException)
    (hc : p.check_mode = false) :
    (∀ v, p.mode = Mode.backup → p.state = State.present →
      get_volume c p.source_volume = some v →
      get_volume_backup c p.backup (some v.id) = none →
      c.createError = some e →
      (main_run p c).outcome = Outcome.failed e.details ∧
      (main_run p c).calls.filter FacadeCall.mutating =
        [FacadeCall.create v.id p.force p.wait p.timeout p.backup p.display_description]) ∧
    (∀ b, p.mode = Mode.backup → p.state = State.absent →
      get_volume_backup c p.backup (truthy p.source_volume) = some b →
      c.deleteError = some e →
      (main_run p c).outcome = Outcome.failed e.message ∧
      (main_run p c).calls.filter FacadeCall.mutating =
        [FacadeCall.delete b.id p.wait p.timeout]) ∧
    (∀ b, p.mode = Mode.restore →
      get_volume_backup c p.backup (truthy p.source_volume) = some b →
      c.restoreError = some e →
      (main_run p c).outcome = Outcome.failed e.message ∧
      (main_run p c).calls.filter FacadeCall.mutating =
        [FacadeCall.restore b.id (resolveTarget p c).2.1 (resolveTarget p c).1
          p.wait p.timeout]) := by
  refine ⟨?_, ?_, ?_⟩
  · intro v hm hs hv hb hce
    simp [main_run, hm, hs, hc, volume_exists, hv, _present_volume_backup, hb,
      create_volume_backup, hce, FacadeCall.mutating]
  · intro b hm hs hb hde
    simp [main_run, hm, hs, hc, _absent_volume_backup, hb, delete_volume_backup,
      hde, FacadeCall.mutating]
  · intro b hm hb hre
    simp [main_run, hm, hc, _restore_volume_backup, hb, restore_volume_backup,
      hre, FacadeCall.mutating, List.filter_append, resolveTarget_mut]

/-- Witness for the amended C8 at concrete input: the delete-path HTTP
error surfaces the message text and the delete was attempted once. -/
theorem c8_http_error_surfaced_w :
    (main_run parC2 cloudDelErr).outcome = Outcome.failed httpErrDel.message ∧
    (main_run parC2 cloudDelErr).calls.filter FacadeCall.mutating =
      [FacadeCall.delete bak1.id parC2.wait parC2.timeout] :=
  (c8_http_error_surfaced parC2 cloudDelErr httpErrDel rfl).2.1 bak1 rfl rfl rfl rfl

end VolumeBackup
